import Mathlib

/-!
Verification development for the CyberTool repository
(`src/red_team.py`, `src/blue_team.py`, `src/web_ui.py`).

The Python sources are shallowly embedded: pure classification logic
becomes Lean functions, threaded workers become trace-producing folds
over the list of ports / ticks, and the socket / psutil layer (external
I/O) is abstracted as an oracle function supplied as a parameter.
Machine integers are modelled as `Nat`/`Int` (no overflow is reachable:
ports are bounded by 65535 and counters by the range length); Python
floats are idealised in decimal fixed point (see the blue-team section),
with `int(x)` on non-negative values modelled as `Nat` floor division.
Wall-clock timestamps (`datetime.now()`) are omitted from the embedded
records.
-/

namespace CyberTool

/-! ## Red team: `PortScannerThread` (src/red_team.py) -/

/-- Outcome of one `socket.connect_ex` attempt against one port, as seen
by `PortScannerThread.scan_port`: the call returns `0` (connection made),
returns non-zero (refused / timed out), raises `socket.gaierror`
(host resolution failure), or raises any other exception. -/
inductive ProbeOutcome where
  | connectOk
  | connectRefused
  | resolutionError
  | otherException
deriving DecidableEq

/-- A network oracle: what one probe of each port observes.  The target
host and the per-attempt timeout only parameterise the underlying socket
call, never the classification, so they do not appear here. -/
def Net : Type := Nat → ProbeOutcome

/-- Embeds `PortScannerThread.scan_port`: `connect_ex == 0` yields
`"open"`, a non-zero return yields `"closed"`, `socket.gaierror` is
caught and yields `"error"`, and any other exception is caught and
yields `"closed"`. -/
def scan_port (net : Net) (port : Nat) : String :=
  match net port with
  | .connectOk => "open"
  | .connectRefused => "closed"
  | .resolutionError => "error"
  | .otherException => "closed"

/-- Embeds the `common_ports` dictionary of
`PortScannerThread.identify_service`, in source order. -/
def common_ports : List (Nat × String) :=
  [(20, "FTP-DATA"), (21, "FTP"), (22, "SSH"), (23, "TELNET"),
   (25, "SMTP"), (53, "DNS"), (80, "HTTP"), (110, "POP3"),
   (143, "IMAP"), (443, "HTTPS"), (445, "SMB"), (3306, "MySQL"),
   (3389, "RDP"), (5432, "PostgreSQL"), (5900, "VNC"),
   (6379, "Redis"), (8080, "HTTP-Alt"), (8443, "HTTPS-Alt"),
   (27017, "MongoDB")]

/-- Embeds `PortScannerThread.identify_service`:
`common_ports.get(port, "unknown")`. -/
def identify_service (port : Nat) : String :=
  match common_ports.lookup port with
  | some s => s
  | none => "unknown"

/-- The results dictionary emitted by `scan_complete` (the
`scan_time` timestamp field is omitted: wall clock). -/
structure ScanResults where
  target : String
  start_port : Nat
  end_port : Nat
  open_ports : List Nat
deriving DecidableEq

/-- One Qt signal emission of `PortScannerThread`.  The thread has no
`cancelled`-style signal: its only terminal signals are `scan_complete`
and `error_occurred`. -/
inductive ScanEvent where
  | progressUpdate (p : Nat)
  | resultUpdate (target : String) (port : Nat) (service : String)
  | scanComplete (r : ScanResults)
  | errorOccurred (msg : String)
deriving DecidableEq

/-- The body of the `for port in range(...)` loop of
`PortScannerThread.run`, iterated over the ports the loop actually
reaches: classifies the port, on `"open"` appends it and emits
`result_update`, then increments `scanned` and emits
`progress_update(int(scanned / total * 100))`.  Returns the emitted
events together with the final `open_ports` accumulator. -/
def scanLoop (net : Net) (target : String) (total : Nat) :
    List Nat → Nat → List Nat → List ScanEvent × List Nat
  | [], _, acc => ([], acc)
  | p :: rest, scanned, acc =>
    let isOpen := scan_port net p = "open"
    let acc' := if isOpen then acc ++ [p] else acc
    let hitEvents : List ScanEvent :=
      if isOpen then [.resultUpdate target p (identify_service p)] else []
    let progress := (scanned + 1) * 100 / total
    let next := scanLoop net target total rest (scanned + 1) acc'
    (hitEvents ++ .progressUpdate progress :: next.1, next.2)

/-- The inclusive ascending port range `range(start_port, end_port + 1)`
of `PortScannerThread.run`. -/
def portRange (s e : Nat) : List Nat := List.range' s (e + 1 - s)

/-- The ports the loop processes before the `if not self.is_running:
break` check fires.  `stop()` flips `is_running` asynchronously; the
trace of a run is fully determined by the iteration index at which the
check first observes `False`: `none` means never (no cancellation),
`some k` means the check at iteration `k` (0-based) breaks, so exactly
the first `k` ports were processed. -/
def processedPorts (s e : Nat) (cancel : Option Nat) : List Nat :=
  match cancel with
  | none => portRange s e
  | some k => (portRange s e).take k

/-- Embeds `PortScannerThread.run`: iterate the range (up to the
cancellation point), then — cancelled or not — emit `scan_complete`
with the accumulated `open_ports`.  The surrounding `try/except` that
would emit `error_occurred` is unreachable here because `scan_port`
catches every exception internally. -/
def runTrace (net : Net) (target : String) (s e : Nat)
    (cancel : Option Nat) : List ScanEvent :=
  let total := e - s + 1
  let out := scanLoop net target total (processedPorts s e cancel) 0 []
  out.1 ++ [.scanComplete ⟨target, s, e, out.2⟩]

/-- The values carried by the `progress_update` emissions of a trace. -/
def progressValues (evs : List ScanEvent) : List Nat :=
  evs.filterMap fun e =>
    match e with
    | .progressUpdate p => some p
    | _ => none

/-- The `(target, port, service)` triples carried by the
`result_update` emissions of a trace. -/
def resultValues (evs : List ScanEvent) : List (String × Nat × String) :=
  evs.filterMap fun e =>
    match e with
    | .resultUpdate t p sv => some (t, p, sv)
    | _ => none

/-- Whether an emission is the `scan_complete` signal (the one the UI
answers by finalising the session in `scan_finished`). -/
def isComplete (e : ScanEvent) : Bool :=
  match e with
  | .scanComplete _ => true
  | _ => false

/-- The sublist of ports that `scan_port` classifies `"open"`. -/
def openPortsOf (net : Net) (ports : List Nat) : List Nat :=
  ports.filter fun p => scan_port net p = "open"

/-- The mutable fields of `PortScannerThread` touched by `stop()`. -/
structure ScannerThreadState where
  is_running : Bool
  open_ports : List Nat
deriving DecidableEq

/-- Embeds `PortScannerThread.stop`: the only mutation is
`self.is_running = False`. -/
def ScannerThreadState.stop (st : ScannerThreadState) : ScannerThreadState :=
  { st with is_running := false }

/-! ## Red team: `RedTeamModule` (src/red_team.py) -/

/-- The session row created by `DatabaseManager.create_session` as
called from the scan entry points (timestamps omitted). -/
structure SessionRecord where
  session_type : String
  target : String
  start_port : Nat
  end_port : Nat
deriving DecidableEq

/-- The part of `RedTeamModule` state that `stop_scan` touches: whether
`scanner_thread` exists and `isRunning()`, the two buttons, and the
audit-log events appended (source, message, level).  The parallel
`results_display.append` of the "Scan stopped by user" line follows the
audit log one-for-one and is not modelled separately. -/
structure RedTeamModuleState where
  threadRunning : Bool
  startEnabled : Bool
  stopEnabled : Bool
  auditLog : List (String × String × String)
deriving DecidableEq

/-- Embeds `RedTeamModule.stop_scan`: if the scanner thread is running,
stop it, wait for it, and log a WARNING; in every case re-enable the
start button and disable the stop button. -/
def stop_scan (m : RedTeamModuleState) : RedTeamModuleState :=
  if m.threadRunning then
    { threadRunning := false
      startEnabled := true
      stopEnabled := false
      auditLog := m.auditLog ++ [("RED_TEAM", "Port scan stopped by user", "WARNING")] }
  else
    { m with startEnabled := true, stopEnabled := false }

/-- Embeds the validation prefix of `RedTeamModule.start_scan`: reject
with a warning dialog (creating nothing) when `start_port > end_port`;
otherwise create the database session record.  The widgets feeding the
arguments clamp ports to `[1, 65535]` and the timeout to `[1, 10]`, and
the start button is only enabled for a non-empty target, but
`start_scan` itself checks none of that. -/
def start_scan (target : String) (start_port end_port : Nat) :
    Option SessionRecord :=
  if start_port > end_port then none
  else some ⟨"red_team", target, start_port, end_port⟩

/-! ## Web UI: job store and `scan_worker` (src/web_ui.py) -/

/-- The fields of a `jobs[job_id]` entry served by `api_scan_status`
(`session_id`, `started_at` and `finished_at` are stored too but never
served; timestamps omitted). -/
structure Job where
  status : String
  progress : Nat
  open_ports : List Nat
deriving DecidableEq

/-- The job entry written by `api_start_scan` under `jobs_lock`. -/
def initJob : Job := ⟨"running", 0, []⟩

/-- One row passed to `db.store_scan_result` by `scan_worker`. -/
structure StoredResult where
  session_id : Nat
  port : Nat
  service : String
  status : String
deriving DecidableEq

/-- The body of the `for port in range(...)` loop of `scan_worker`: on
`connect_ex == 0` store a result row (service hard-coded to
`"unknown"`) and append the port; a raised exception (resolution
failure or otherwise) is caught and only logged; then increment
`scanned` and write `progress` into the job entry.  Returns the
sequence of progress values written, the stored rows, and the local
`open_ports` list. -/
def webScanLoop (net : Net) (session_id total : Nat) :
    List Nat → Nat → List Nat × List StoredResult × List Nat
  | [], _ => ([], [], [])
  | p :: rest, scanned =>
    let isOpen := net p = ProbeOutcome.connectOk
    let stores : List StoredResult :=
      if isOpen then [⟨session_id, p, "unknown", "open"⟩] else []
    let opens : List Nat := if isOpen then [p] else []
    let progress := (scanned + 1) * 100 / total
    let next := webScanLoop net session_id total rest (scanned + 1)
    (progress :: next.1, stores ++ next.2.1, opens ++ next.2.2)

/-- The successive values of `jobs[job_id]` produced by `api_start_scan`
followed by `scan_worker`: the initial entry, one state per in-loop
progress write (each write mutates only `progress`), and the final
write which — in a single `jobs_lock` block — sets `status` to
`"completed"` and publishes `open_ports`. -/
def webJobTrace (net : Net) (session_id s e : Nat) : List Job :=
  let total := e - s + 1
  let out := webScanLoop net session_id total (portRange s e) 0
  let during := out.1.map (fun pr => { initJob with progress := pr })
  let lastProg := out.1.getLastD initJob.progress
  initJob :: during ++ [⟨"completed", lastProg, out.2.2⟩]

/-- The `db.store_scan_result` rows written by one `scan_worker` run. -/
def webStoredResults (net : Net) (session_id s e : Nat) : List StoredResult :=
  (webScanLoop net session_id (e - s + 1) (portRange s e) 0).2.1

/-- Embeds `api_start_scan`: reject an empty (or missing) `target` with
HTTP 400 before anything is created; otherwise create the database
session, register the job with `status = "running"`, `progress = 0` and
empty `open_ports`, and start the worker thread.  No validation of the
port range or the timeout is performed.  The ports arrive as
`int(...)`, modelled as `Nat` (every port of interest is non-negative);
the timeout arrives as `float(...)`, modelled in fixed point as a
signed number of tenths of a second. -/
def api_start_scan (target : String) (start_port end_port : Nat)
    (timeout : Int) : Except (Nat × String) (SessionRecord × Job) :=
  if target = "" then Except.error (400, "target required")
  else Except.ok (⟨"red_team", target, start_port, end_port⟩, initJob)

/-- Embeds `api_scan_status`: look the job up, 404 when absent,
otherwise serve `(status, progress, open_ports)`. -/
def api_scan_status (jobs : List (String × Job)) (job_id : String) :
    Except (Nat × String) (String × Nat × List Nat) :=
  match jobs.lookup job_id with
  | none => Except.error (404, "job not found")
  | some j => Except.ok (j.status, j.progress, j.open_ports)

/-! ## Blue team: `SystemMonitorThread` (src/blue_team.py)

The percent values handled here are Python floats.  They are modelled
in decimal fixed point as a number of tenths of a percent
(`80.0` ↦ `800`, `95.7` ↦ `957`): every constant in the source and in
the properties of interest is an exact multiple of `0.1`, psutil
reports percentages rounded to one decimal, strict comparison of such
floats coincides with strict comparison of their tenths, and
`f"{v:.1f}"` prints exactly the tenths.  Percentages are non-negative,
so `Nat` suffices. -/

/-- A non-negative percent value counted in tenths of a percent. -/
abbrev Tenths := Nat

/-- The `self.thresholds` dictionary of `SystemMonitorThread`
(keys `cpu_percent`, `memory_percent`, `disk_percent`). -/
structure Thresholds where
  cpu_percent : Tenths
  memory_percent : Tenths
  disk_percent : Tenths
deriving DecidableEq

/-- The statistics dictionary built by `collect_system_stats`
(`timestamp` omitted: wall clock). -/
structure SystemStats where
  cpu_percent : Tenths
  memory_percent : Tenths
  disk_percent : Tenths
  network_connections : Nat
  running_processes : Nat
deriving DecidableEq

/-- One `alert_generated` emission / one row of `BlueTeamModule.add_alert`:
severity, category, message. -/
structure Alert where
  severity : String
  category : String
  message : String
deriving DecidableEq

/-- Renders a percent value held in tenths the way `f"{v:.1f}"` renders
the corresponding float: one digit after the decimal point. -/
def fmt1 (v : Tenths) : String :=
  toString (v / 10) ++ "." ++ toString (v % 10)

/-- Embeds `SystemMonitorThread.check_thresholds`: one alert per metric
strictly above its threshold — HIGH for CPU and Memory, CRITICAL for
Disk — each with the value formatted to one decimal place. -/
def check_thresholds (thresholds : Thresholds) (stats : SystemStats) :
    List Alert :=
  (if stats.cpu_percent > thresholds.cpu_percent then
    [⟨"HIGH", "CPU", "CPU usage critical: " ++ fmt1 stats.cpu_percent ++ "%"⟩]
  else []) ++
  (if stats.memory_percent > thresholds.memory_percent then
    [⟨"HIGH", "Memory",
      "Memory usage critical: " ++ fmt1 stats.memory_percent ++ "%"⟩]
  else []) ++
  (if stats.disk_percent > thresholds.disk_percent then
    [⟨"CRITICAL", "Disk",
      "Disk usage critical: " ++ fmt1 stats.disk_percent ++ "%"⟩]
  else [])

/-- The fields of `SystemMonitorThread` relevant to monitoring. -/
structure SystemMonitorThread where
  check_interval : Nat
  is_running : Bool
  thresholds : Thresholds
deriving DecidableEq

/-- Embeds `SystemMonitorThread.__init__`: the thresholds are the
hard-coded defaults `{cpu: 80.0, memory: 85.0, disk: 90.0}` — no
caller-supplied configuration is copied in. -/
def SystemMonitorThread.init (check_interval : Nat) : SystemMonitorThread :=
  ⟨check_interval, true, ⟨800, 850, 900⟩⟩

/-- Embeds `SystemMonitorThread.update_thresholds`: replaces
`self.thresholds` on the live thread object. -/
def SystemMonitorThread.update_thresholds (t : SystemMonitorThread)
    (thresholds : Thresholds) : SystemMonitorThread :=
  { t with thresholds := thresholds }

/-- One iteration of `SystemMonitorThread.run` with the given sampled
stats: the alerts emitted are `check_thresholds` evaluated against the
thread's current `self.thresholds`. -/
def SystemMonitorThread.tickAlerts (t : SystemMonitorThread)
    (stats : SystemStats) : List Alert :=
  check_thresholds t.thresholds stats

/-! ## Blue team: `ProcessMonitorThread` (src/blue_team.py) -/

/-- One entry of the process list built by `scan_processes`
(`user` and `memory` are carried along but never used by detection,
so they are omitted). -/
structure ProcInfo where
  pid : Nat
  name : String
deriving DecidableEq

/-- The keyword list of `ProcessMonitorThread.is_suspicious`. -/
def suspicious_keywords : List String :=
  ["hack", "crack", "exploit", "backdoor", "keylog"]

/-- Whether `needle` matches `hay` position by position from the
start (`needle` a prefix of `hay`). -/
def matchesAt : List Char → List Char → Bool
  | [], _ => true
  | _ :: _, [] => false
  | a :: as, b :: bs => a == b && matchesAt as bs

/-- Whether `needle` occurs contiguously anywhere inside `hay`
(Python `needle in hay` on strings). -/
def containsSub (needle : List Char) : List Char → Bool
  | [] => needle.isEmpty
  | b :: bs => matchesAt needle (b :: bs) || containsSub needle bs

/-- Embeds `ProcessMonitorThread.is_suspicious`: any keyword occurring
as a substring of the lowercased process name. -/
def is_suspicious (process_name : String) : Bool :=
  suspicious_keywords.any fun keyword =>
    containsSub keyword.toList (process_name.toList.map Char.toLower)

/-- The Python set `{p['pid'] for p in processes}`, modelled as a
duplicate-free list in first-appearance order (set iteration order is
unspecified in Python; only membership and emptiness matter below). -/
def pidSet (processes : List ProcInfo) : List Nat :=
  processes.foldl
    (fun acc p => if acc.contains p.pid then acc else acc ++ [p.pid]) []

/-- Embeds `ProcessMonitorThread.detect_new_processes` for one tick:
diff the current pid set against `known_processes`; unless
`known_processes` is empty (the `# Skip first run` guard) emit one
`suspicious_process` signal per new pid whose first matching list
entry has a suspicious name; finally replace `known_processes`.
Returns the emitted `(process-name, reason)` pairs and the new known
set. -/
def detect_new_processes (known_processes : List Nat)
    (processes : List ProcInfo) : List (String × String) × List Nat :=
  let current_pids := pidSet processes
  let new_pids := current_pids.filter fun pid => !known_processes.contains pid
  let emits : List (String × String) :=
    if !known_processes.isEmpty && !new_pids.isEmpty then
      new_pids.filterMap fun pid =>
        match processes.find? (fun proc => proc.pid == pid) with
        | some proc =>
          if is_suspicious proc.name then
            some (proc.name, "New process detected")
          else none
        | none => none
    else []
  (emits, current_pids)

/-- Embeds `BlueTeamModule.handle_suspicious_process`: each
`suspicious_process` signal becomes one HIGH "Process" alert. -/
def handle_suspicious_process (process_name reason : String) : Alert :=
  ⟨"HIGH", "Process", "Suspicious: " ++ process_name ++ " - " ++ reason⟩

/-- The ticks of `ProcessMonitorThread.run`, given the process list
sampled at each tick: the per-tick alert batches reaching
`BlueTeamModule.add_alert`, threading `known_processes` through. -/
def processMonitorTicks : List Nat → List (List ProcInfo) → List (List Alert)
  | _, [] => []
  | known, ps :: rest =>
    let (emits, known') := detect_new_processes known ps
    emits.map (fun e => handle_suspicious_process e.1 e.2) ::
      processMonitorTicks known' rest

/-- A whole `ProcessMonitorThread` run starting from the empty
`known_processes` set of `__init__`. -/
def processMonitorRun (ticks : List (List ProcInfo)) : List (List Alert) :=
  processMonitorTicks [] ticks


/-! ## Lemmas about the scanner loop -/

theorem scan_port_open_iff (net : Net) (p : Nat) :
    scan_port net p = "open" ↔ net p = ProbeOutcome.connectOk := by
  cases h : net p <;> simp [scan_port, h]

theorem scanLoop_acc (net : Net) (t : String) (total : Nat) :
    ∀ (ports : List Nat) (scanned : Nat) (acc : List Nat),
    (scanLoop net t total ports scanned acc).2 = acc ++ openPortsOf net ports := by
  intro ports
  induction ports with
  | nil => intro scanned acc; simp [scanLoop, openPortsOf]
  | cons p rest ih =>
    intro scanned acc
    by_cases h : scan_port net p = "open" <;>
      simp [scanLoop, openPortsOf, h, ih, List.filter_cons]

theorem scanLoop_progress (net : Net) (t : String) (total : Nat) :
    ∀ (ports : List Nat) (scanned : Nat) (acc : List Nat),
    progressValues (scanLoop net t total ports scanned acc).1 =
      (List.range' (scanned + 1) ports.length).map (fun i => i * 100 / total) := by
  intro ports
  induction ports with
  | nil => intro scanned acc; simp [scanLoop, progressValues]
  | cons p rest ih =>
    intro scanned acc
    by_cases h : scan_port net p = "open" <;>
      simp [scanLoop, progressValues, h, List.range'] <;>
      simpa [progressValues] using ih (scanned + 1) _

theorem scanLoop_results (net : Net) (t : String) (total : Nat) :
    ∀ (ports : List Nat) (scanned : Nat) (acc : List Nat),
    resultValues (scanLoop net t total ports scanned acc).1 =
      (openPortsOf net ports).map (fun p => (t, p, identify_service p)) := by
  intro ports
  induction ports with
  | nil => intro scanned acc; simp [scanLoop, resultValues, openPortsOf]
  | cons p rest ih =>
    intro scanned acc
    by_cases h : scan_port net p = "open" <;>
      simp [scanLoop, resultValues, openPortsOf, h, List.filter_cons] <;>
      simpa [resultValues, openPortsOf] using ih (scanned + 1) _

theorem scanLoop_no_complete (net : Net) (t : String) (total : Nat) :
    ∀ (ports : List Nat) (scanned : Nat) (acc : List Nat),
    (scanLoop net t total ports scanned acc).1.countP isComplete = 0 := by
  intro ports
  induction ports with
  | nil => intro scanned acc; simp [scanLoop]
  | cons p rest ih =>
    intro scanned acc
    by_cases h : scan_port net p = "open" <;>
      simp [scanLoop, h, List.countP_cons, List.countP_append, isComplete, ih]

theorem scanLoop_last (net : Net) (t : String) (total : Nat) :
    ∀ (ports : List Nat) (scanned : Nat) (acc : List Nat), ports ≠ [] →
    ∃ pre, (scanLoop net t total ports scanned acc).1 =
      pre ++ [ScanEvent.progressUpdate ((scanned + ports.length) * 100 / total)] := by
  intro ports
  induction ports with
  | nil => intro _ _ h; exact absurd rfl h
  | cons p rest ih =>
    intro scanned acc _
    rcases List.eq_nil_or_concat rest with hrest | _
    · subst hrest
      refine ⟨(if scan_port net p = "open" then
          [ScanEvent.resultUpdate t p (identify_service p)] else []), ?_⟩
      by_cases h : scan_port net p = "open" <;> simp [scanLoop, h]
    · have hne : rest ≠ [] := by
        rintro rfl
        rename_i hcat
        rcases hcat with ⟨l, a, hla⟩
        exact absurd hla (by simp)
      have harith : scanned + (rest.length + 1) = scanned + 1 + rest.length := by
        omega
      by_cases h : scan_port net p = "open"
      · obtain ⟨pre', hpre'⟩ := ih (scanned + 1) (acc ++ [p]) hne
        refine ⟨ScanEvent.resultUpdate t p (identify_service p) ::
          ScanEvent.progressUpdate ((scanned + 1) * 100 / total) :: pre', ?_⟩
        simp [scanLoop, h, List.length_cons, harith, hpre']
      · obtain ⟨pre', hpre'⟩ := ih (scanned + 1) acc hne
        refine ⟨ScanEvent.progressUpdate ((scanned + 1) * 100 / total) :: pre', ?_⟩
        simp [scanLoop, h, List.length_cons, harith, hpre']

theorem progress_step_mono (total : Nat) (i : Nat) :
    i * 100 / total ≤ (i + 1) * 100 / total :=
  Nat.div_le_div_right (Nat.mul_le_mul_right 100 (Nat.le_succ i))

theorem chain_le_map_range' (f : Nat → Nat) (hf : ∀ i, f i ≤ f (i + 1)) :
    ∀ (n a : Nat), List.Chain' (· ≤ ·) ((List.range' a n).map f) := by
  intro n
  induction n with
  | zero => intro a; simp
  | succ m ih =>
    intro a
    cases m with
    | zero => simp [List.range']
    | succ k =>
      have hrest := ih (a + 1)
      simp only [List.range', List.map] at hrest ⊢
      exact List.chain'_cons.mpr ⟨hf a, hrest⟩

theorem getLastD_map_range' (f : Nat → Nat) (d n a : Nat) :
    ((List.range' a (n + 1)).map f).getLastD d = f (a + n) := by
  have h : a + (n + 1) - 1 = a + n := by omega
  simp [List.getLastD_eq_getLast?, List.getLast?_map, List.getLast?_range', h]

/-! ## Lemmas about the web scan worker -/

theorem webScanLoop_progress (net : Net) (sid total : Nat) :
    ∀ (ports : List Nat) (scanned : Nat),
    (webScanLoop net sid total ports scanned).1 =
      (List.range' (scanned + 1) ports.length).map (fun i => i * 100 / total) := by
  intro ports
  induction ports with
  | nil => intro scanned; simp [webScanLoop]
  | cons p rest ih =>
    intro scanned
    simp [webScanLoop, List.range', ih (scanned + 1)]

theorem webScanLoop_stores (net : Net) (sid total : Nat) :
    ∀ (ports : List Nat) (scanned : Nat),
    (webScanLoop net sid total ports scanned).2.1 =
      (openPortsOf net ports).map
        (fun p => StoredResult.mk sid p "unknown" "open") := by
  intro ports
  induction ports with
  | nil => intro scanned; simp [webScanLoop, openPortsOf]
  | cons p rest ih =>
    intro scanned
    by_cases h : net p = ProbeOutcome.connectOk <;>
      simp [webScanLoop, openPortsOf, scan_port_open_iff, h, List.filter_cons,
        ih (scanned + 1)]

theorem webScanLoop_opens (net : Net) (sid total : Nat) :
    ∀ (ports : List Nat) (scanned : Nat),
    (webScanLoop net sid total ports scanned).2.2 = openPortsOf net ports := by
  intro ports
  induction ports with
  | nil => intro scanned; simp [webScanLoop, openPortsOf]
  | cons p rest ih =>
    intro scanned
    by_cases h : net p = ProbeOutcome.connectOk <;>
      simp [webScanLoop, openPortsOf, scan_port_open_iff, h, List.filter_cons,
        ih (scanned + 1)]

/-! ## Lemmas about whole scanner runs -/

theorem length_portRange (s e : Nat) : (portRange s e).length = e + 1 - s := by
  simp [portRange]

theorem runTrace_eq (net : Net) (t : String) (s e : Nat) (cancel : Option Nat) :
    runTrace net t s e cancel =
      (scanLoop net t (e - s + 1) (processedPorts s e cancel) 0 []).1 ++
        [ScanEvent.scanComplete
          ⟨t, s, e, openPortsOf net (processedPorts s e cancel)⟩] := by
  simp [runTrace, scanLoop_acc]

theorem progressValues_runTrace (net : Net) (t : String) (s e : Nat)
    (cancel : Option Nat) :
    progressValues (runTrace net t s e cancel) =
      (List.range' 1 (processedPorts s e cancel).length).map
        (fun i => i * 100 / (e - s + 1)) := by
  simp [runTrace, progressValues, List.filterMap_append]
  simpa [progressValues] using
    scanLoop_progress net t (e - s + 1) (processedPorts s e cancel) 0 []

theorem resultValues_runTrace (net : Net) (t : String) (s e : Nat)
    (cancel : Option Nat) :
    resultValues (runTrace net t s e cancel) =
      (openPortsOf net (processedPorts s e cancel)).map
        (fun p => (t, p, identify_service p)) := by
  simp [runTrace, resultValues, List.filterMap_append]
  simpa [resultValues] using
    scanLoop_results net t (e - s + 1) (processedPorts s e cancel) 0 []

theorem countComplete_runTrace (net : Net) (t : String) (s e : Nat)
    (cancel : Option Nat) :
    (runTrace net t s e cancel).countP isComplete = 1 := by
  simp [runTrace, List.countP_append, scanLoop_no_complete, isComplete,
    List.countP_cons]

theorem chain_progressValues_runTrace (net : Net) (t : String) (s e : Nat)
    (cancel : Option Nat) :
    List.Chain' (· ≤ ·) (progressValues (runTrace net t s e cancel)) := by
  rw [progressValues_runTrace]
  exact chain_le_map_range' _ (progress_step_mono (e - s + 1)) _ 1

theorem runTrace_completes_at_100 (net : Net) (t : String) (s e : Nat)
    (hse : s ≤ e) :
    ∃ pre, runTrace net t s e none =
      pre ++ [ScanEvent.progressUpdate 100,
        ScanEvent.scanComplete ⟨t, s, e, openPortsOf net (portRange s e)⟩] := by
  have hne : portRange s e ≠ [] := by
    have : (portRange s e).length = e + 1 - s := length_portRange s e
    intro hnil
    rw [hnil] at this
    simp at this
    omega
  obtain ⟨pre, hpre⟩ :=
    scanLoop_last net t (e - s + 1) (portRange s e) 0 [] hne
  have hlen : (0 + (portRange s e).length) * 100 / (e - s + 1) = 100 := by
    rw [length_portRange]
    have h1 : 0 + (e + 1 - s) = e - s + 1 := by omega
    rw [h1]
    exact Nat.mul_div_cancel_left 100 (by omega)
  refine ⟨pre, ?_⟩
  rw [runTrace_eq]
  simp only [processedPorts] at hpre ⊢
  rw [hpre, hlen, List.append_assoc]
  simp

theorem chain_le_cons_concat :
    ∀ (l : List Nat) (a : Nat), List.Chain' (· ≤ ·) (a :: l) →
      List.Chain' (· ≤ ·) (a :: l ++ [l.getLastD a]) := by
  intro l
  induction l with
  | nil => intro a _; simp
  | cons b l ih =>
    intro a h
    have hab : a ≤ b := (List.chain'_cons.mp h).1
    have hbl := (List.chain'_cons.mp h).2
    have htail := ih b hbl
    simp only [List.getLastD_cons, List.cons_append]
    exact List.chain'_cons.mpr ⟨hab, by simpa using htail⟩

theorem webJobTrace_map_progress (net : Net) (sid s e : Nat) :
    (webJobTrace net sid s e).map (fun j => j.progress) =
      0 :: (webScanLoop net sid (e - s + 1) (portRange s e) 0).1 ++
        [(webScanLoop net sid (e - s + 1) (portRange s e) 0).1.getLastD 0] := by
  have hid : ∀ prs : List Nat,
      (prs.map fun pr => ({ initJob with progress := pr } : Job)).map
        (fun j => j.progress) = prs := by
    intro prs
    rw [List.map_map]
    exact List.map_id _
  simp only [webJobTrace, List.map_cons, List.map_append, List.map_nil, hid]
  rfl

theorem chain_webJobTrace_progress (net : Net) (sid s e : Nat) :
    List.Chain' (· ≤ ·) ((webJobTrace net sid s e).map (fun j => j.progress)) := by
  rw [webJobTrace_map_progress]
  have hchain :
      List.Chain' (· ≤ ·) (webScanLoop net sid (e - s + 1) (portRange s e) 0).1 := by
    rw [webScanLoop_progress]
    exact chain_le_map_range' _ (progress_step_mono (e - s + 1)) _ 1
  have h0 :
      List.Chain' (· ≤ ·)
        (0 :: (webScanLoop net sid (e - s + 1) (portRange s e) 0).1) :=
    List.chain'_cons'.mpr ⟨fun y _ => Nat.zero_le y, hchain⟩
  exact chain_le_cons_concat _ 0 h0

theorem getLast?_cons_concat {α : Type} (a b : α) (l : List α) :
    (a :: (l ++ [b])).getLast? = some b := by
  rw [← List.cons_append, List.getLast?_concat]

theorem webJobTrace_running_empty (net : Net) (sid s e : Nat) :
    ∀ j ∈ webJobTrace net sid s e, j.status = "running" → j.open_ports = [] := by
  intro j hj hst
  rw [webJobTrace] at hj
  rcases List.mem_cons.mp hj with h | hj2
  · subst h; rfl
  · rcases List.mem_append.mp hj2 with h | h
    · obtain ⟨pr, _, h⟩ := List.mem_map.mp h
      subst h
      rfl
    · have h2 := List.mem_singleton.mp h
      subst h2
      simp at hst

theorem webJobTrace_getLast (net : Net) (sid s e : Nat) :
    (webJobTrace net sid s e).getLast? =
      some ⟨"completed",
        (webScanLoop net sid (e - s + 1) (portRange s e) 0).1.getLastD 0,
        openPortsOf net (portRange s e)⟩ := by
  show (initJob ::
      ((webScanLoop net sid (e - s + 1) (portRange s e) 0).1.map
        (fun pr => { initJob with progress := pr }) ++
        [⟨"completed",
          (webScanLoop net sid (e - s + 1) (portRange s e) 0).1.getLastD
            initJob.progress,
          (webScanLoop net sid (e - s + 1) (portRange s e) 0).2.2⟩])).getLast? = _
  rw [getLast?_cons_concat, webScanLoop_opens]
  rfl

theorem webJobTrace_final_100 (net : Net) (sid s e : Nat) (hse : s ≤ e) :
    (webJobTrace net sid s e).getLast? =
      some ⟨"completed", 100, openPortsOf net (portRange s e)⟩ := by
  rw [webJobTrace_getLast]
  have hlen : (portRange s e).length = (e - s) + 1 := by
    rw [length_portRange]; omega
  have hprogs :
      (webScanLoop net sid (e - s + 1) (portRange s e) 0).1.getLastD 0 = 100 := by
    rw [webScanLoop_progress, hlen, getLastD_map_range']
    have h1 : 1 + (e - s) = e - s + 1 := by omega
    rw [h1]
    exact Nat.mul_div_cancel_left 100 (by omega)
  rw [hprogs]

/-! ## Claim theorems -/

/-- C1 (counterexample): scanning ports 1–3 with port 1 open and
cancellation observed at iteration 1 (mid-run: two ports unscanned),
the `PortScannerThread.run` embedding still emits the `scan_complete`
results signal — the identical terminal signal of an uncancelled run,
which `RedTeamModule.scan_finished` renders as "Scan Complete!" — after
the cancellation is observed.  There is no distinct `cancelled`
terminal state or signal anywhere in the thread, refuting the claim
that the terminal state is `cancelled` (never completed) and that no
result event follows the cancellation. -/
theorem C1_counterexample :
    runTrace
        (fun p => if p = 1 then ProbeOutcome.connectOk
          else ProbeOutcome.connectRefused) "h" 1 3 (some 1) =
      [ScanEvent.resultUpdate "h" 1 "unknown", ScanEvent.progressUpdate 33,
        ScanEvent.scanComplete ⟨"h", 1, 3, [1]⟩] ∧
    1 < (portRange 1 3).length := by
  exact ⟨by decide, by decide⟩

/-- C1 (amended): for every PortScan run whose cancellation is observed
at iteration `k` mid-range, scanning does stop (exactly `k` port
attempts happen, so exactly `k` progress updates) and the
already-discovered hits are kept, but the thread then emits the same
`scan_complete` signal as a normal completion, carrying the partial
`open_ports`; no `cancelled`-state transition exists. -/
theorem C1_cancelled_run_still_emits_complete (net : Net) (target : String)
    (s e k : Nat) (hk : k < (portRange s e).length) :
    ∃ evs, runTrace net target s e (some k) =
        evs ++ [ScanEvent.scanComplete
          ⟨target, s, e, openPortsOf net ((portRange s e).take k)⟩] ∧
      (progressValues evs).length = k ∧
      resultValues evs =
        (openPortsOf net ((portRange s e).take k)).map
          (fun p => (target, p, identify_service p)) ∧
      evs.countP isComplete = 0 := by
  refine ⟨(scanLoop net target (e - s + 1) ((portRange s e).take k) 0 []).1,
    ?_, ?_, ?_, ?_⟩
  · have h := runTrace_eq net target s e (some k)
    simpa [processedPorts] using h
  · have h := scanLoop_progress net target (e - s + 1)
      ((portRange s e).take k) 0 []
    have hlen : ((portRange s e).take k).length = k := by
      rw [List.length_take]
      omega
    simp [progressValues] at h
    simp [progressValues, h, hlen]
    omega
  · simpa [resultValues] using
      scanLoop_results net target (e - s + 1) ((portRange s e).take k) 0 []
  · exact scanLoop_no_complete net target (e - s + 1) ((portRange s e).take k) 0 []

/-- Witness for C1 (amended), at ports 1–3, all probes refused,
cancellation observed at iteration 1. -/
theorem C1_cancelled_run_still_emits_complete_witness :
    ∃ evs, runTrace (fun _ => ProbeOutcome.connectRefused) "h" 1 3 (some 1) =
        evs ++ [ScanEvent.scanComplete
          ⟨"h", 1, 3,
            openPortsOf (fun _ => ProbeOutcome.connectRefused)
              ((portRange 1 3).take 1)⟩] ∧
      (progressValues evs).length = 1 ∧
      resultValues evs =
        (openPortsOf (fun _ => ProbeOutcome.connectRefused)
          ((portRange 1 3).take 1)).map
            (fun p => ("h", p, identify_service p)) ∧
      evs.countP isComplete = 0 :=
  C1_cancelled_run_still_emits_complete
    (fun _ => ProbeOutcome.connectRefused) "h" 1 3 1 (by decide)

/-- C2 (code behaviour at the failing input): for a target that cannot
be resolved, every probe raises `socket.gaierror`; `scan_port`
classifies that as `"error"`, but `run` never inspects this value —
scanning range 1–3 still performs all three port attempts (three
progress updates) and ends with the normal `scan_complete` signal and
empty results.  No `failed` transition and no `error_occurred` emission
happen, contradicting the claim that the first resolution error aborts
the task as `failed` with the remaining ports unprobed. -/
theorem C2_resolution_error_not_fatal :
    scan_port (fun _ => ProbeOutcome.resolutionError) 1 = "error" ∧
    runTrace (fun _ => ProbeOutcome.resolutionError) "badhost" 1 3 none =
      [ScanEvent.progressUpdate 33, ScanEvent.progressUpdate 66,
        ScanEvent.progressUpdate 100,
        ScanEvent.scanComplete ⟨"badhost", 1, 3, []⟩] := by
  exact ⟨by decide, by decide⟩

/-- C3: progress of a PortScan run.  In both the desktop thread and the
web worker: the progress sequence is non-decreasing (under any
cancellation pattern); over a valid range `s ≤ e` without cancellation,
one progress value `i * 100 / total` (floor) is published per attempt
`i = 1..total`; the desktop trace ends `..., progress 100,
scan_complete ...`, and the web job's final registry state is
`status = "completed"` with `progress = 100`.  (Python's
`int((scanned / total) * 100)` on floats is idealised as the exact
`Nat` floor `scanned * 100 / total`.) -/
theorem C3_progress_monotone_and_complete_at_100 (net : Net) (target : String)
    (sid s e : Nat) (cancel : Option Nat) :
    List.Chain' (· ≤ ·) (progressValues (runTrace net target s e cancel)) ∧
    (s ≤ e →
      progressValues (runTrace net target s e none) =
        (List.range' 1 (e + 1 - s)).map (fun i => i * 100 / (e - s + 1))) ∧
    (s ≤ e → ∃ pre, runTrace net target s e none =
      pre ++ [ScanEvent.progressUpdate 100,
        ScanEvent.scanComplete ⟨target, s, e, openPortsOf net (portRange s e)⟩]) ∧
    List.Chain' (· ≤ ·) ((webJobTrace net sid s e).map (fun j => j.progress)) ∧
    (s ≤ e → (webJobTrace net sid s e).getLast? =
      some ⟨"completed", 100, openPortsOf net (portRange s e)⟩) := by
  refine ⟨chain_progressValues_runTrace net target s e cancel,
    fun _ => ?_,
    fun hse => runTrace_completes_at_100 net target s e hse,
    chain_webJobTrace_progress net sid s e,
    fun hse => webJobTrace_final_100 net sid s e hse⟩
  rw [progressValues_runTrace]
  simp [processedPorts, length_portRange]

/-- Witness for C3 at range 1–3, all probes refused, no cancellation. -/
theorem C3_progress_witness :
    List.Chain' (· ≤ ·) (progressValues
      (runTrace (fun _ => ProbeOutcome.connectRefused) "h" 1 3 none)) ∧
    (1 ≤ 3 →
      progressValues (runTrace (fun _ => ProbeOutcome.connectRefused) "h" 1 3 none) =
        (List.range' 1 (3 + 1 - 1)).map (fun i => i * 100 / (3 - 1 + 1))) ∧
    (1 ≤ 3 → ∃ pre,
      runTrace (fun _ => ProbeOutcome.connectRefused) "h" 1 3 none =
        pre ++ [ScanEvent.progressUpdate 100,
          ScanEvent.scanComplete ⟨"h", 1, 3,
            openPortsOf (fun _ => ProbeOutcome.connectRefused) (portRange 1 3)⟩]) ∧
    List.Chain' (· ≤ ·)
      ((webJobTrace (fun _ => ProbeOutcome.connectRefused) 7 1 3).map
        (fun j => j.progress)) ∧
    (1 ≤ 3 →
      (webJobTrace (fun _ => ProbeOutcome.connectRefused) 7 1 3).getLast? =
        some ⟨"completed", 100,
          openPortsOf (fun _ => ProbeOutcome.connectRefused) (portRange 1 3)⟩) :=
  C3_progress_monotone_and_complete_at_100
    (fun _ => ProbeOutcome.connectRefused) "h" 7 1 3 none

/-- C4 (counterexample): a web scan request with `start_port = 5 >
3 = end_port` is not rejected: `api_start_scan` creates the database
session record and registers a running job, refuting the claim that
such a request fails with `InvalidArgument` and that no Task or session
record is created. -/
theorem C4_counterexample :
    5 > 3 ∧
    api_start_scan "example.com" 5 3 10 =
      Except.ok (⟨"red_team", "example.com", 5, 3⟩, initJob) := by
  exact ⟨by decide, rfl⟩

/-- C4 (amended): only the empty-target violation is rejected by the
web API (HTTP 400, nothing created); every non-empty target — whatever
the port range or timeout — creates a session record and a running
job.  The desktop `start_scan` is the only place the range is checked:
it rejects `start_port > end_port` before creating its session and
creates the session otherwise. -/
theorem C4_validation_gaps (target : String) (sp ep : Nat) (to₁ : Int) :
    (target = "" →
      api_start_scan target sp ep to₁ = Except.error (400, "target required")) ∧
    (target ≠ "" →
      api_start_scan target sp ep to₁ =
        Except.ok (⟨"red_team", target, sp, ep⟩, initJob)) ∧
    (sp > ep → start_scan target sp ep = none) ∧
    (sp ≤ ep → start_scan target sp ep = some ⟨"red_team", target, sp, ep⟩) := by
  refine ⟨fun h => ?_, fun h => ?_, fun h => ?_, fun h => ?_⟩
  · simp [api_start_scan, h]
  · simp [api_start_scan, h]
  · simp [start_scan, h]
  · simp [start_scan]
    omega

/-- Witness for C4 (amended): the four validation branches at concrete
requests, including an inverted range and a zero timeout accepted by
the web API. -/
theorem C4_validation_gaps_witness :
    api_start_scan "" 1 2 10 = Except.error (400, "target required") ∧
    api_start_scan "x" 5 3 0 =
      Except.ok (⟨"red_team", "x", 5, 3⟩, initJob) ∧
    start_scan "x" 5 3 = none ∧
    start_scan "x" 1 3 = some ⟨"red_team", "x", 1, 3⟩ :=
  ⟨(C4_validation_gaps "" 1 2 10).1 rfl,
    (C4_validation_gaps "x" 5 3 0).2.1 (by decide),
    (C4_validation_gaps "x" 5 3 0).2.2.1 (by decide),
    (C4_validation_gaps "x" 1 3 10).2.2.2 (by decide)⟩

/-- C5: the threshold evaluator emits one alert per metric strictly
above its threshold (no coalescing: the emitted list's length is the
number of breaches), the CPU and Memory alerts carry severity HIGH and
the Disk alert severity CRITICAL, each message embeds the value to one
decimal place, and the snapshot cpu=95.0, memory=50.0, disk=50.0
against thresholds {cpu: 80, memory: 85, disk: 90} yields exactly the
single alert HIGH / "CPU" (values in fixed-point tenths). -/
theorem C5_threshold_evaluator (th : Thresholds) (st : SystemStats) :
    (check_thresholds th st).length =
      ((if st.cpu_percent > th.cpu_percent then 1 else 0) +
        (if st.memory_percent > th.memory_percent then 1 else 0) +
        (if st.disk_percent > th.disk_percent then 1 else 0)) ∧
    ((Alert.mk "HIGH" "CPU"
        ("CPU usage critical: " ++ fmt1 st.cpu_percent ++ "%") ∈
      check_thresholds th st) ↔ st.cpu_percent > th.cpu_percent) ∧
    (∀ a ∈ check_thresholds th st, a.category = "CPU" →
      a.severity = "HIGH" ∧
        a.message = "CPU usage critical: " ++ fmt1 st.cpu_percent ++ "%") ∧
    (∀ a ∈ check_thresholds th st, a.category = "Memory" →
      a.severity = "HIGH" ∧
        a.message = "Memory usage critical: " ++ fmt1 st.memory_percent ++ "%") ∧
    (∀ a ∈ check_thresholds th st, a.category = "Disk" →
      a.severity = "CRITICAL" ∧
        a.message = "Disk usage critical: " ++ fmt1 st.disk_percent ++ "%") ∧
    check_thresholds ⟨800, 850, 900⟩ ⟨950, 500, 500, 0, 0⟩ =
      [⟨"HIGH", "CPU", "CPU usage critical: 95.0%"⟩] := by
  refine ⟨?_, ?_, ?_, ?_, ?_, by decide⟩ <;>
    by_cases h1 : st.cpu_percent > th.cpu_percent <;>
    by_cases h2 : st.memory_percent > th.memory_percent <;>
    by_cases h3 : st.disk_percent > th.disk_percent <;>
    simp [check_thresholds, h1, h2, h3, Alert.mk.injEq]

/-- Witness for C5: the CPU alert is present exactly because
950 tenths exceeds the 800-tenths threshold. -/
theorem C5_threshold_evaluator_witness :
    (Alert.mk "HIGH" "CPU" ("CPU usage critical: " ++ fmt1 950 ++ "%") ∈
      check_thresholds ⟨800, 850, 900⟩ ⟨950, 500, 500, 0, 0⟩) ∧
    (950 : Tenths) > 800 :=
  ⟨((C5_threshold_evaluator ⟨800, 850, 900⟩ ⟨950, 500, 500, 0, 0⟩).2.1).mpr
      (by decide),
    by decide⟩

/-- C7: cancellation is idempotent at every level: `stop()` merely
clears `is_running`, so a second `stop()` changes nothing; the module
`stop_scan` applied twice equals it applied once (in particular no
second "stopped by user" audit event); calling it on an already
non-running scan leaves the audit log and thread state untouched (it is
a no-op, not an error); and any run emits the `scan_complete`
finalisation signal exactly once, so results are never finalised
twice. -/
theorem C7_cancel_idempotent :
    (∀ st : ScannerThreadState, st.stop.stop = st.stop) ∧
    (∀ m : RedTeamModuleState, stop_scan (stop_scan m) = stop_scan m) ∧
    (∀ m : RedTeamModuleState, m.threadRunning = false →
      (stop_scan m).auditLog = m.auditLog ∧
        (stop_scan m).threadRunning = false) ∧
    (∀ (net : Net) (t : String) (s e : Nat) (cancel : Option Nat),
      (runTrace net t s e cancel).countP isComplete = 1) := by
  refine ⟨fun st => rfl, fun m => ?_, fun m h => ?_,
    fun net t s e c => countComplete_runTrace net t s e c⟩
  · cases hm : m.threadRunning <;> simp [stop_scan, hm]
  · simp [stop_scan, h]

/-- Witness for C7: stopping a scan whose thread is not running adds no
audit event and leaves the thread stopped. -/
theorem C7_cancel_idempotent_witness :
    (stop_scan ⟨false, false, true, []⟩).auditLog =
      ([] : List (String × String × String)) ∧
    (stop_scan ⟨false, false, true, []⟩).threadRunning = false :=
  C7_cancel_idempotent.2.2.1 ⟨false, false, true, []⟩ rfl

/-- C8 (counterexample): the monitor thread created by
`SystemMonitorThread.__init__` alerts on a cpu=95.0 snapshot, but after
`update_thresholds` raises the live thresholds mid-run the very same
snapshot no longer alerts — a change made to the threshold
configuration after start does affect the running task's alert
decisions, refuting the immutable-copy claim. -/
theorem C8_counterexample :
    (SystemMonitorThread.init 5).tickAlerts ⟨950, 500, 500, 0, 0⟩ =
      [⟨"HIGH", "CPU", "CPU usage critical: 95.0%"⟩] ∧
    ((SystemMonitorThread.init 5).update_thresholds
      ⟨2000, 2000, 2000⟩).tickAlerts ⟨950, 500, 500, 0, 0⟩ = [] := by
  exact ⟨by decide, by decide⟩

/-- C8 (amended): the thread's thresholds are hard-coded defaults at
construction (no caller-owned configuration is copied), they live
mutably on the thread object, and every tick evaluates whatever
thresholds are currently stored: after `update_thresholds` the next
tick's decisions follow the newly stored values, the most recent update
winning. -/
theorem C8_thresholds_live_mutable (t : SystemMonitorThread)
    (th th' : Thresholds) (stats : SystemStats) (i : Nat) :
    (SystemMonitorThread.init i).thresholds = ⟨800, 850, 900⟩ ∧
    t.tickAlerts stats = check_thresholds t.thresholds stats ∧
    (t.update_thresholds th).tickAlerts stats = check_thresholds th stats ∧
    ((t.update_thresholds th).update_thresholds th').tickAlerts stats =
      (t.update_thresholds th').tickAlerts stats := by
  exact ⟨rfl, rfl, rfl, rfl⟩

/-! ## Lemmas about the process monitor -/

theorem length_filterMap_eq_length_filter {α β : Type} (f : α → Option β) :
    ∀ l : List α,
    (l.filterMap f).length = (l.filter (fun a => (f a).isSome)).length := by
  intro l
  induction l with
  | nil => simp
  | cons a l ih =>
    cases h : f a <;> simp [List.filterMap_cons, List.filter_cons, h, ih]

theorem detect_new_processes_emits (known : List Nat) (ps : List ProcInfo) :
    (detect_new_processes known ps).1 =
      if known.isEmpty then []
      else ((pidSet ps).filter (fun pid => !known.contains pid)).filterMap
        (fun pid =>
          match ps.find? (fun proc => proc.pid == pid) with
          | some proc =>
            if is_suspicious proc.name then
              some (proc.name, "New process detected")
            else none
          | none => none) := by
  by_cases hk : known.isEmpty <;>
    by_cases hn : ((pidSet ps).filter (fun pid => !known.contains pid)).isEmpty <;>
      simp only [detect_new_processes, hk, hn, Bool.not_true, Bool.not_false,
        Bool.false_and, Bool.true_and, Bool.and_false, Bool.and_true,
        if_true, if_false, ite_true, ite_false] <;>
      simp_all [List.isEmpty_iff]

theorem detect_new_processes_count (known : List Nat) (ps : List ProcInfo) :
    (detect_new_processes known ps).1.length =
      if known.isEmpty then 0
      else ((pidSet ps).filter (fun pid => !known.contains pid &&
        (ps.find? (fun proc => proc.pid == pid)).elim false
          (fun proc => is_suspicious proc.name))).length := by
  rw [detect_new_processes_emits]
  by_cases hk : known.isEmpty
  · simp [hk]
  · rw [if_neg hk, if_neg hk]
    rw [length_filterMap_eq_length_filter, List.filter_filter]
    congr 1
    apply List.filter_congr
    intro pid _
    cases hf : ps.find? (fun proc => proc.pid == pid) with
    | none => simp [hf]
    | some proc => by_cases hs : is_suspicious proc.name <;> simp [hf, hs]

/-- C6 (counterexample): when the first tick's process list is empty,
the process named "newkeylogger.exe" appearing on the second tick is
newly seen (pid 1 was not in the first tick's pid set) and its name is
suspicious, yet the run emits no alert at all — the `# Skip first run`
guard `if self.known_processes and new_pids` skips every tick whose
baseline pid set is empty, not only the literal first tick, refuting
the claim that on any later tick each newly seen suspicious process
triggers exactly one HIGH alert. -/
theorem C6_counterexample :
    processMonitorRun [[], [⟨1, "newkeylogger.exe"⟩]] = [[], []] ∧
    is_suspicious "newkeylogger.exe" = true ∧
    ¬ (1 ∈ pidSet ([] : List ProcInfo)) := by
  exact ⟨by decide, by decide, by decide⟩

/-- C6 (amended): the first tick never alerts, whatever the process
list contains; more generally a tick alerts only when the previous
tick's observed pid set is non-empty, and then emits exactly one alert
per newly seen pid whose (first matching) entry has a suspicious name;
with a non-empty first tick, "newkeylogger.exe" appearing on the second
tick triggers exactly one HIGH "Process" alert. -/
theorem C6_process_monitor (t1 : List ProcInfo) (ts : List (List ProcInfo))
    (known : List Nat) (ps : List ProcInfo) :
    (processMonitorRun (t1 :: ts)).head? = some [] ∧
    ((detect_new_processes known ps).1.length =
      if known.isEmpty then 0
      else ((pidSet ps).filter (fun pid => !known.contains pid &&
        (ps.find? (fun proc => proc.pid == pid)).elim false
          (fun proc => is_suspicious proc.name))).length) ∧
    processMonitorRun [[⟨1, "bash"⟩], [⟨1, "bash"⟩, ⟨2, "newkeylogger.exe"⟩]] =
      [[], [⟨"HIGH", "Process",
        "Suspicious: newkeylogger.exe - New process detected"⟩]] := by
  refine ⟨?_, detect_new_processes_count known ps, by decide⟩
  have h := detect_new_processes_emits [] t1
  simp [processMonitorRun, processMonitorTicks, h]

/-- C9 (counterexample): against a host serving only port 22, the web
worker `scan_worker` over range 1–100 records exactly one row — but its
service label is the hard-coded `"unknown"`, not the `"SSH"` that the
static table maps port 22 to, refuting the claim that every recorded
hit's service label comes from the well-known-port lookup table. -/
theorem C9_counterexample :
    webStoredResults
        (fun p => if p = 22 then ProbeOutcome.connectOk
          else ProbeOutcome.connectRefused) 7 1 100 =
      [⟨7, 22, "unknown", "open"⟩] ∧
    identify_service 22 = "SSH" ∧
    ("unknown" : String) ≠ "SSH" := by
  exact ⟨by decide, by decide, by decide⟩

/-- C9 (amended): the lookup table holds 19 ports (not ~60); any port
absent from it maps to "unknown"; in the desktop thread every port
found open — and only those — produces a `result_update` carrying the
table's label; the web worker instead stores every open port with
service "unknown"; and the desktop scan of range 1–100 against a host
serving only port 22 yields exactly the single hit ("h", 22, "SSH"),
final results `[22]`, with progress reaching 100. -/
theorem C9_service_labels (net : Net) (t : String) (sid s e : Nat)
    (cancel : Option Nat) :
    common_ports.length = 19 ∧
    (∀ p, common_ports.lookup p = none → identify_service p = "unknown") ∧
    (resultValues (runTrace net t s e cancel) =
      (openPortsOf net (processedPorts s e cancel)).map
        (fun p => (t, p, identify_service p))) ∧
    (∀ r ∈ webStoredResults net sid s e,
      r.service = "unknown" ∧ r.status = "open") ∧
    resultValues (runTrace
      (fun p => if p = 22 then ProbeOutcome.connectOk
        else ProbeOutcome.connectRefused) "h" 1 100 none) = [("h", 22, "SSH")] ∧
    (runTrace (fun p => if p = 22 then ProbeOutcome.connectOk
        else ProbeOutcome.connectRefused) "h" 1 100 none).getLast? =
      some (ScanEvent.scanComplete ⟨"h", 1, 100, [22]⟩) ∧
    (progressValues (runTrace
      (fun p => if p = 22 then ProbeOutcome.connectOk
        else ProbeOutcome.connectRefused) "h" 1 100 none)).getLast? =
      some 100 := by
  refine ⟨by decide, ?_, resultValues_runTrace net t s e cancel, ?_,
    by decide, by decide, by decide⟩
  · intro p hp
    simp [identify_service, hp]
  · intro r hr
    rw [webStoredResults, webScanLoop_stores] at hr
    obtain ⟨p, _, hpr⟩ := List.mem_map.mp hr
    subst hpr
    exact ⟨rfl, rfl⟩

/-- Witness for C9 (amended): port 9999 is absent from the table and
labelled "unknown"; the single row stored by the web worker for the
port-22 host has service "unknown" and status "open". -/
theorem C9_service_labels_witness :
    identify_service 9999 = "unknown" ∧
    (⟨7, 22, "unknown", "open"⟩ : StoredResult).service = "unknown" ∧
    (⟨7, 22, "unknown", "open"⟩ : StoredResult).status = "open" :=
  have h := C9_service_labels
    (fun p => if p = 22 then ProbeOutcome.connectOk
      else ProbeOutcome.connectRefused) "h" 7 1 100 none
  ⟨h.2.1 9999 (by decide),
    (h.2.2.2.1 ⟨7, 22, "unknown", "open"⟩ (by decide)).1,
    (h.2.2.2.1 ⟨7, 22, "unknown", "open"⟩ (by decide)).2⟩

/-- C10: in the web job store, every registry state with status
"running" — the initial state written by `api_start_scan` and every
in-loop progress write — has an empty `open_ports` list, and
`api_scan_status` serves `[]` for it; the discovered ports become
visible only in the final state, which sets status "completed" and
publishes the full open-port list in the same locked write; meanwhile
the database receives one stored row per open port as the scan runs. -/
theorem C10_running_jobs_hide_ports (net : Net) (sid s e : Nat) :
    (∀ j ∈ webJobTrace net sid s e, j.status = "running" →
      j.open_ports = [] ∧
      api_scan_status [("job-1", j)] "job-1" =
        Except.ok ("running", j.progress, [])) ∧
    (∃ fin, (webJobTrace net sid s e).getLast? = some fin ∧
      fin.status = "completed" ∧
      fin.open_ports = openPortsOf net (portRange s e)) ∧
    webStoredResults net sid s e =
      (openPortsOf net (portRange s e)).map
        (fun p => ⟨sid, p, "unknown", "open"⟩) := by
  refine ⟨fun j hj hst => ?_,
    ⟨_, webJobTrace_getLast net sid s e, rfl, rfl⟩,
    by rw [webStoredResults, webScanLoop_stores]⟩
  have he := webJobTrace_running_empty net sid s e j hj hst
  refine ⟨he, ?_⟩
  simp [api_scan_status, List.lookup, hst, he]

/-- Witness for C10: the mid-scan registry state of a 1–3 scan against
a host with port 2 open is running with progress 33 and hides the open
port from the status endpoint. -/
theorem C10_running_jobs_hide_ports_witness :
    (⟨"running", 33, []⟩ : Job).open_ports = [] ∧
    api_scan_status [("job-1", ⟨"running", 33, []⟩)] "job-1" =
      Except.ok ("running", (⟨"running", 33, []⟩ : Job).progress, []) :=
  (C10_running_jobs_hide_ports
    (fun p => if p = 2 then ProbeOutcome.connectOk
      else ProbeOutcome.connectRefused) 7 1 3).1
    ⟨"running", 33, []⟩ (by decide) rfl

end CyberTool
